import Mathlib

/-!
Verification of the feature lifecycle orchestration engine and its
service-mesh capability wiring, shallowly embedded from the Go sources:
`pkg/feature/servicemesh/resources.go`,
`controllers/dscinitialization/servicemesh_setup.go`,
`platform/capabilities/platform_roles.go`, and the feature-tracking
integration test. Parts of the engine that exist only behind interfaces
(the feature builder/handler internals, the k8s wait package, the cluster
helper package) are modelled from the specification, as marked on each
definition.
-/

namespace ODH

/-! ## Dynamically-typed values of the unstructured client -/

/-- A dynamically-typed Go value stored under a key of the
`status.readiness.components` map: either a JSON list (only its length
matters to the readiness check) or a value of some other shape. -/
inductive GoVal where
  | list (n : Nat)
  | other
deriving DecidableEq, Repr

/-- The relevant fragment of the fetched ServiceMeshControlPlane
unstructured object: `componentsMap = none` models
`status.readiness.components` being absent (or a nested-field parse
error), `some m` models the map itself as an association list. -/
structure SMCPObj where
  componentsMap : Option (List (String × GoVal))
deriving DecidableEq, Repr

/-- Go map lookup: `none` models the zero value (nil interface) returned
for an absent key. -/
def lookupKey : List (String × GoVal) → String → Option GoVal
  | [], _ => none
  | (k, v) :: rest, key => if k = key then some v else lookupKey rest key

/-- The Go forced type assertion `v.([]interface{})` followed by `len`:
returns the list length, or `none` for the run-time panic raised when the
value is absent (a nil interface) or not a list. -/
def assertListLen : Option GoVal → Option Nat
  | some (GoVal.list n) => some n
  | _ => none

/-- `CheckControlPlaneComponentReadiness` from
`pkg/feature/servicemesh/resources.go`. The client `Get` is abstracted as
the `fetch` argument. The outer `Option` models normal termination
(`some (ready, err)`) versus a panic (`none`) from the forced type
assertions on the `ready`/`pending`/`unready` entries. -/
def CheckControlPlaneComponentReadiness (fetch : Except String SMCPObj) :
    Option (Bool × Option String) :=
  match fetch with
  | Except.error e =>
      some (false, some ("failed to find Service Mesh Control Plane: " ++ e))
  | Except.ok smcpObj =>
      match smcpObj.componentsMap with
      | none =>
          some (false, some "status conditions not found or error in parsing of Service Mesh Control Plane")
      | some components =>
          match assertListLen (lookupKey components "ready") with
          | none => none
          | some readyComponents =>
              match assertListLen (lookupKey components "pending") with
              | none => none
              | some pendingComponents =>
                  match assertListLen (lookupKey components "unready") with
                  | none => none
                  | some unreadyComponents =>
                      some (decide (pendingComponents = 0 ∧ unreadyComponents = 0 ∧ 0 < readyComponents), none)

/-! ## RBAC synthesis (`platform/capabilities/platform_roles.go`) -/

/-- `platform.ObjectReference`: the group of its GroupVersionKind plus a
resources string. -/
structure ObjectReference where
  Group : String
  Resources : String
deriving DecidableEq, Repr

/-- `rbacv1.PolicyRule` restricted to the fields the code populates. -/
structure PolicyRule where
  APIGroups : List String
  Resources : List String
  Verbs : List String
deriving DecidableEq, Repr

/-- `createPolicyRules` from `platform/capabilities/platform_roles.go`:
the two accumulating `append` loops become left folds. -/
def createPolicyRules (objectReferences : List ObjectReference) : List PolicyRule :=
  let apiGroups := objectReferences.foldl (fun acc ref => acc ++ [ref.Group]) []
  let resources := objectReferences.foldl (fun acc ref => acc ++ [ref.Resources]) []
  [{ APIGroups := apiGroups
     Resources := resources
     Verbs := ["get", "list", "watch", "update", "patch"] }]

/-- `rbacv1.Subject` restricted to the fields the code populates. -/
structure Subject where
  Kind : String
  Name : String
  Namespace : String
deriving DecidableEq, Repr

/-- `rbacv1.RoleRef`. -/
structure RoleRef where
  APIGroup : String
  Kind : String
  Name : String
deriving DecidableEq, Repr

/-- `createPlatformRoleBinding` from
`platform/capabilities/platform_roles.go`. -/
def createPlatformRoleBinding (roleName namespaceVal : String) :
    List Subject × RoleRef :=
  ([{ Kind := "ServiceAccount"
      Name := "opendatahub-operator-controller-manager"
      Namespace := namespaceVal }],
   { APIGroup := "rbac.authorization.k8s.io"
     Kind := "ClusterRole"
     Name := roleName })

/-- Insert or replace the entry with the given key in an association
list, appending when absent — the create-or-update behaviour of the
cluster helpers. -/
def upsertNamed {κ α : Type} [DecidableEq κ] :
    List (κ × α) → κ → α → List (κ × α)
  | [], key, v => [(key, v)]
  | (k, w) :: rest, key, v =>
      if k = key then (key, v) :: rest else (k, w) :: upsertNamed rest key v

/-- Association-list lookup. -/
def lookupNamed {κ α : Type} [DecidableEq κ] :
    List (κ × α) → κ → Option α
  | [], _ => none
  | (k, v) :: rest, key => if k = key then some v else lookupNamed rest key

/-- Remove the entry with the given key from an association list. -/
def removeNamed {κ α : Type} [DecidableEq κ] :
    List (κ × α) → κ → List (κ × α)
  | [], _ => []
  | (k, v) :: rest, key =>
      if k = key then rest else (k, v) :: removeNamed rest key

/-- Cluster-scoped RBAC state: cluster roles by name, cluster role
bindings by name. -/
structure RBACState where
  clusterRoles : List (String × List PolicyRule)
  clusterRoleBindings : List (String × (List Subject × RoleRef))
deriving DecidableEq, Repr

/-- Outcomes of the three collaborator calls made by
`CreateOrUpdatePlatformRBAC`. Modelled from the spec: the `cluster`
helper package (`CreateOrUpdateClusterRole`, `GetOperatorNamespace`,
`CreateOrUpdateClusterRoleBinding`) is consumed as an opaque object-store
capability set, so each call is abstracted by its outcome. -/
structure RBACEnv where
  roleWriteErr : Option String
  operatorNamespace : Except String String
  bindingWriteErr : Option String
deriving Repr

/-- Modelled from the spec: `cluster.CreateOrUpdateClusterRole` — create
or update the named cluster role, or fail with the environment's
injected error leaving the state untouched. -/
def CreateOrUpdateClusterRole (env : RBACEnv) (s : RBACState)
    (roleName : String) (rules : List PolicyRule) :
    Except String RBACState :=
  match env.roleWriteErr with
  | some e => Except.error e
  | none =>
      Except.ok { s with clusterRoles := upsertNamed s.clusterRoles roleName rules }

/-- Modelled from the spec: `cluster.CreateOrUpdateClusterRoleBinding`. -/
def CreateOrUpdateClusterRoleBinding (env : RBACEnv) (s : RBACState)
    (name : String) (subjects : List Subject) (roleRef : RoleRef) :
    Except String RBACState :=
  match env.bindingWriteErr with
  | some e => Except.error e
  | none =>
      Except.ok { s with clusterRoleBindings := upsertNamed s.clusterRoleBindings name (subjects, roleRef) }

/-- `CreateOrUpdatePlatformRBAC` from
`platform/capabilities/platform_roles.go`. The pair returned carries the
cluster state as it stands when the function returns (writes already
performed are not rolled back on error) together with the error, if
any. -/
def CreateOrUpdatePlatformRBAC (env : RBACEnv) (roleName : String)
    (objectReferences : List ObjectReference) (s : RBACState) :
    RBACState × Option String :=
  match CreateOrUpdateClusterRole env s roleName (createPolicyRules objectReferences) with
  | Except.error e => (s, some ("failed creating cluster role: " ++ e))
  | Except.ok s1 =>
      match env.operatorNamespace with
      | Except.error errNS => (s1, some ("failed getting operator namespace: " ++ errNS))
      | Except.ok namespaceVal =>
          let sr := createPlatformRoleBinding roleName namespaceVal
          match CreateOrUpdateClusterRoleBinding env s1 roleName sr.1 sr.2 with
          | Except.error e => (s1, some ("failed creating cluster role binding: " ++ e))
          | Except.ok s2 => (s2, none)

/-! ## Feature engine data model (modelled from the spec where the
engine's own code sits behind the `pkg/feature` interface) -/

/-- A status condition {type, status, reason, message}. -/
structure Condition where
  type : String
  status : String
  reason : String
  message : String
deriving DecidableEq, Repr

/-- The persisted FeatureTracker record: phase, conditions and owner
references (each reference abstracted to the owner's name). -/
structure FeatureTracker where
  phase : String
  conditions : List Condition
  ownerReferences : List String
deriving DecidableEq, Repr

/-- `ServiceMeshSpec.ControlPlane` feature data: the fields `MeshRefs`
reads. -/
structure ControlPlaneRef where
  Name : String
  Namespace : String
deriving DecidableEq, Repr

/-- Authorization feature data: the fields `AuthRefs` reads (`Audiences`
is a nilable pointer to a string slice in Go). -/
structure AuthorizationRef where
  Namespace : String
  Audiences : Option (List String)
  ProviderName : String
  AuthConfigSelector : String
deriving DecidableEq, Repr

/-- A feature as assembled by the fluent builder. Modelled from the
spec: name, optional enablement predicate (evaluated to its outcome),
ordered precondition and postcondition checks (each abstracted to its
outcome: `none` passes, `some e` fails with `e`), the manifest-derived
resources the apply step creates, an optional owner, a target namespace,
the typed data-bag entries the service-mesh resource producers read, and
the outcome of the feature's delete-time actions. -/
structure FeatureDef where
  name : String
  enabled : Option Bool
  preconditions : List (Option String)
  postconditions : List (Option String)
  resources : List String
  owner : Option String
  TargetNamespace : String
  controlPlaneData : Option ControlPlaneRef
  authorizationData : Option AuthorizationRef
  deleteErr : Option String
deriving Repr

/-- Cluster state as seen by the engine: resources applied from
manifests, feature trackers by feature name, config maps keyed by
(namespace, name) with their string data, and the owner object's
reported condition list. -/
structure ClusterState where
  appliedResources : List String
  trackers : List (String × FeatureTracker)
  configMaps : List ((String × String) × List (String × String))
  ownerConditions : List Condition
deriving DecidableEq, Repr

/-- First failing outcome of an ordered sequence of checks. -/
def firstErr : List (Option String) → Option String
  | [] => none
  | some e :: _ => some e
  | none :: rest => firstErr rest

/-- Owner references recorded on objects created for a feature: the
singleton owner when the feature was built with `OwnedBy`, empty
otherwise. -/
def ownerRefs (f : FeatureDef) : List String :=
  match f.owner with
  | some o => [o]
  | none => []

/-- Modelled from the spec: `Feature.Apply` — (1) skip when
`enabledWhen` is present and false; (2) run preconditions in order,
stopping at the first failure with a `Degraded/PreConditions` tracker;
(3) apply the feature's resources; (4) run postconditions, a failure
yielding a `Degraded/PostConditions` tracker while the applied resources
remain; (5) otherwise upsert a `Ready` tracker with
`Available/FeatureCreated`. The tracker is upserted with the feature's
owner references in every non-skipped outcome, matching the
feature-tracking integration test. -/
def featureApply (f : FeatureDef) (s : ClusterState) :
    ClusterState × Option String :=
  if f.enabled = some false then (s, none)
  else
    match firstErr f.preconditions with
    | some e =>
        let tracker : FeatureTracker :=
          { phase := "Error"
            conditions := [{ type := "Degraded", status := "True", reason := "PreConditions", message := e }]
            ownerReferences := ownerRefs f }
        ({ s with trackers := upsertNamed s.trackers f.name tracker }, some e)
    | none =>
        let s1 := { s with appliedResources := s.appliedResources ++ f.resources }
        match firstErr f.postconditions with
        | some e =>
            let tracker : FeatureTracker :=
              { phase := "Error"
                conditions := [{ type := "Degraded", status := "True", reason := "PostConditions", message := e }]
                ownerReferences := ownerRefs f }
            ({ s1 with trackers := upsertNamed s1.trackers f.name tracker }, some e)
        | none =>
            let tracker : FeatureTracker :=
              { phase := "Ready"
                conditions := [{ type := "Available", status := "True", reason := "FeatureCreated", message := "" }]
                ownerReferences := ownerRefs f }
            ({ s1 with trackers := upsertNamed s1.trackers f.name tracker }, none)

/-- Modelled from the spec: `Feature.Delete` — run the feature's
delete-time actions (abstracted to their outcome), then remove the
feature's own tracker record; absence of a resource to delete is not an
error. -/
def featureDelete (f : FeatureDef) (s : ClusterState) :
    ClusterState × Option String :=
  match f.deleteErr with
  | some e => (s, some e)
  | none => ({ s with trackers := removeNamed s.trackers f.name }, none)

/-- Modelled from the spec: `FeaturesHandler.Apply` walks the registered
features in registration order and stops at the first failure. Also
returns the names of the features attempted, in order. -/
def featuresApply : List FeatureDef → ClusterState →
    ClusterState × List String × Option String
  | [], s => (s, [], none)
  | f :: rest, s =>
      match featureApply f s with
      | (s1, some e) => (s1, [f.name], some e)
      | (s1, none) =>
          match featuresApply rest s1 with
          | (s2, tr, r2) => (s2, f.name :: tr, r2)

/-- Modelled from the spec: `FeaturesHandler.Delete` walks the features
in the same order with the same fail-fast contract. -/
def featuresDelete : List FeatureDef → ClusterState →
    ClusterState × List String × Option String
  | [], s => (s, [], none)
  | f :: rest, s =>
      match featureDelete f s with
      | (s1, some e) => (s1, [f.name], some e)
      | (s1, none) =>
          match featuresDelete rest s1 with
          | (s2, tr, r2) => (s2, f.name :: tr, r2)

/-- Modelled from the spec: the closed handler variants — the normal
cluster-bound handler over its registered features, and the
`EmptyFeaturesHandler` used when a capability is structurally
disabled. -/
inductive FeaturesHandlerKind where
  | empty
  | cluster (features : List FeatureDef)

/-- Modelled from the spec: handler `Apply` — the empty handler always
succeeds without touching the cluster. -/
def handlerApply : FeaturesHandlerKind → ClusterState →
    ClusterState × List String × Option String
  | FeaturesHandlerKind.empty, s => (s, [], none)
  | FeaturesHandlerKind.cluster fs, s => featuresApply fs s

/-- Modelled from the spec: handler `Delete`. -/
def handlerDelete : FeaturesHandlerKind → ClusterState →
    ClusterState × List String × Option String
  | FeaturesHandlerKind.empty, s => (s, [], none)
  | FeaturesHandlerKind.cluster fs, s => featuresDelete fs s

/-- A handler paired with the capability reporter's initial condition
(`feature.NewHandlerWithReporter`). -/
structure HandlerWithReporter where
  handler : FeaturesHandlerKind
  condition : Condition

/-- Modelled from the spec: on failure the reporter flips the initial
condition's status while still propagating the error. -/
def flipStatus (st : String) : String :=
  if st = "True" then "False" else "True"

/-- Insert or replace a condition by its type in the owner's condition
list. -/
def upsertCondition : List Condition → Condition → List Condition
  | [], c => [c]
  | d :: rest, c =>
      if d.type = c.type then c :: rest else d :: upsertCondition rest c

/-- Modelled from the spec: the capability reporter writes the initial
condition into the owner's condition list on success, its status-flipped
form on failure. -/
def reportCondition (cond : Condition) (ok : Bool) (s : ClusterState) :
    ClusterState :=
  let written := if ok then cond else { cond with status := flipStatus cond.status }
  { s with ownerConditions := upsertCondition s.ownerConditions written }

/-- Modelled from the spec: `HandlerWithReporter.Apply` delegates to the
wrapped handler, reports the outcome as a condition on the owner, and
returns the underlying error unchanged. -/
def handlerWithReporterApply (cap : HandlerWithReporter) (s : ClusterState) :
    ClusterState × List String × Option String :=
  match handlerApply cap.handler s with
  | (s1, tr, r) => (reportCondition cap.condition r.isNone s1, tr, r)

/-- Modelled from the spec: `HandlerWithReporter.Delete`. -/
def handlerWithReporterDelete (cap : HandlerWithReporter) (s : ClusterState) :
    ClusterState × List String × Option String :=
  match handlerDelete cap.handler s with
  | (s1, tr, r) => (reportCondition cap.condition r.isNone s1, tr, r)

/-- The capability loop of `configureServiceMesh`
(`controllers/dscinitialization/servicemesh_setup.go`, Managed case):
apply each capability in order and return the first error unchanged,
attempting no later capability. -/
def applyCapabilities : List HandlerWithReporter → ClusterState →
    ClusterState × List String × Option String
  | [], s => (s, [], none)
  | cap :: rest, s =>
      match handlerWithReporterApply cap s with
      | (s1, tr, some e) => (s1, tr, some e)
      | (s1, tr, none) =>
          match applyCapabilities rest s1 with
          | (s2, tr2, r2) => (s2, tr ++ tr2, r2)

/-- The capability loop of `removeServiceMesh`: delete each capability
in order and return the first error unchanged. -/
def deleteCapabilities : List HandlerWithReporter → ClusterState →
    ClusterState × List String × Option String
  | [], s => (s, [], none)
  | cap :: rest, s =>
      match handlerWithReporterDelete cap s with
      | (s1, tr, some e) => (s1, tr, some e)
      | (s1, tr, none) =>
          match deleteCapabilities rest s1 with
          | (s2, tr2, r2) => (s2, tr ++ tr2, r2)

/-- `operatorv1.ManagementState` values the controller branches on. -/
inductive ManagementState where
  | Managed
  | Unmanaged
  | Removed
deriving DecidableEq, Repr

/-- `removeServiceMesh` from
`controllers/dscinitialization/servicemesh_setup.go`: a nil
`Spec.ServiceMesh` is a no-op, and only the Managed state triggers
deletion of the capabilities. -/
def removeServiceMesh (serviceMeshState : Option ManagementState)
    (capabilities : List HandlerWithReporter) (s : ClusterState) :
    ClusterState × List String × Option String :=
  match serviceMeshState with
  | none => (s, [], none)
  | some st =>
      if st = ManagementState.Managed then deleteCapabilities capabilities s
      else (s, [], none)

/-- `configureServiceMesh` from
`controllers/dscinitialization/servicemesh_setup.go`: a nil
`Spec.ServiceMesh` defaults to Removed; Managed applies the capabilities
in order, Unmanaged does nothing, Removed delegates to
`removeServiceMesh`. -/
def configureServiceMesh (serviceMeshState : Option ManagementState)
    (capabilities : List HandlerWithReporter) (s : ClusterState) :
    ClusterState × List String × Option String :=
  match serviceMeshState.getD ManagementState.Removed with
  | ManagementState.Managed => applyCapabilities capabilities s
  | ManagementState.Unmanaged => (s, [], none)
  | ManagementState.Removed => removeServiceMesh serviceMeshState capabilities s

/-- `authorizationCapability` from
`controllers/dscinitialization/servicemesh_setup.go`. The
`cluster.SubscriptionExists` lookup for `authorino-operator` is
abstracted to its outcome; the authorization feature list stands for
`r.authorizationFeatures`. When the subscription is absent the function
returns, without error, a reporter-wrapped `EmptyFeaturesHandler`
carrying the MissingOperator condition. -/
def authorizationCapability (subscriptionExists : Except String Bool)
    (condition : Condition) (authzFeatures : List FeatureDef) :
    Except String HandlerWithReporter :=
  match subscriptionExists with
  | Except.error e => Except.error ("failed to list subscriptions " ++ e)
  | Except.ok false =>
      Except.ok
        { handler := FeaturesHandlerKind.empty
          condition :=
            { type := "CapabilityServiceMeshAuthorization"
              status := "False"
              reason := "MissingOperator"
              message := "Authorino operator is not installed on the cluster, skipping authorization capability" } }
  | Except.ok true =>
      Except.ok
        { handler := FeaturesHandlerKind.cluster authzFeatures
          condition := condition }

/-! ## Config map side-channel (`pkg/feature/servicemesh/resources.go`) -/

/-- Modelled from the spec: the fixed name under which the mesh
reference config map is published (the `servicemesh` package constant
`ConfigMapMeshRef`). -/
def ConfigMapMeshRef : String := "service-mesh-refs"

/-- Modelled from the spec: the fixed name under which the auth
reference config map is published (the `servicemesh` package constant
`ConfigMapAuthRef`). -/
def ConfigMapAuthRef : String := "auth-refs"

/-- Modelled from the spec: `FeatureData.ControlPlane.Extract` — reading
a data-bag key that was never populated fails with a data-extraction
error distinct from cluster errors. -/
def extractControlPlane (f : FeatureDef) : Except String ControlPlaneRef :=
  match f.controlPlaneData with
  | none => Except.error "DataNotFound: control-plane"
  | some cp => Except.ok cp

/-- Modelled from the spec: `FeatureData.Authorization.Extract`. -/
def extractAuthorization (f : FeatureDef) : Except String AuthorizationRef :=
  match f.authorizationData with
  | none => Except.error "DataNotFound: authorization"
  | some auth => Except.ok auth

/-- Modelled from the spec: `cluster.CreateOrUpdateConfigMap` — create
or update the config map at (namespace, name) with the given data. -/
def CreateOrUpdateConfigMap (s : ClusterState) (namespaceVal nameVal : String)
    (data : List (String × String)) : ClusterState :=
  { s with configMaps := upsertNamed s.configMaps (namespaceVal, nameVal) data }

/-- The `audiencesList` computation of `AuthRefs`: the nilable audiences
slice is comma-joined when non-nil and non-empty, and empty otherwise. -/
def audiencesValue : Option (List String) → String
  | some audiences => if 0 < audiences.length then String.intercalate "," audiences else ""
  | none => ""

/-- `MeshRefs` from `pkg/feature/servicemesh/resources.go`: publish the
control-plane name and mesh namespace under `ConfigMapMeshRef` in the
feature's target namespace, or fail with a wrapped extraction error. -/
def MeshRefs (f : FeatureDef) (s : ClusterState) : ClusterState × Option String :=
  match extractControlPlane f with
  | Except.error e => (s, some ("failed to get control plane struct: " ++ e))
  | Except.ok meshConfig =>
      let data := [("CONTROL_PLANE_NAME", meshConfig.Name),
                   ("MESH_NAMESPACE", meshConfig.Namespace)]
      (CreateOrUpdateConfigMap s f.TargetNamespace ConfigMapMeshRef data, none)

/-- `AuthRefs` from `pkg/feature/servicemesh/resources.go`: publish the
audiences (comma-joined when the nilable slice is non-empty), provider
name and auth-config selector under `ConfigMapAuthRef` in the feature's
target namespace, or fail with a wrapped extraction error. -/
def AuthRefs (f : FeatureDef) (s : ClusterState) : ClusterState × Option String :=
  match extractAuthorization f with
  | Except.error e => (s, some ("could not get auth from feature: " ++ e))
  | Except.ok auth =>
      let audiencesList := audiencesValue auth.Audiences
      let data := [("AUTH_AUDIENCE", audiencesList),
                   ("AUTH_PROVIDER", auth.ProviderName),
                   ("AUTHORINO_LABEL", auth.AuthConfigSelector)]
      (CreateOrUpdateConfigMap s f.TargetNamespace ConfigMapAuthRef data, none)

/-! ## Readiness poller (`pkg/feature/servicemesh/resources.go`) -/

/-- The fixed poll interval of the service-mesh feature library, in
seconds (`interval = 2 * time.Second`). -/
def interval : Nat := 2

/-- The fixed poll timeout, in seconds (`duration = 5 * time.Minute`). -/
def duration : Nat := 300

/-- Outcome of a bounded readiness poll. -/
inductive PollResult where
  | ready
  | timedOut
  | checkFailed (e : String)
  | canceled
  | panicked
deriving DecidableEq, Repr

/-- Whether the cancellation-carrying context has been canceled by tick
`i` (the context is canceled at tick `c`, before the check at `c`
runs). -/
def cancelDue (cancelAt : Option Nat) (i : Nat) : Bool :=
  match cancelAt with
  | none => false
  | some c => c ≤ i

/-- The bounded poll loop on remaining fuel. Each check is drawn from
the tick-indexed sequence `check`; `none` models the check panicking,
`some (done, err)` its Go return. The second component of the result is
the number of checks invoked. -/
def pollLoop (check : Nat → Option (Bool × Option String))
    (cancelAt : Option Nat) : Nat → Nat → PollResult × Nat
  | 0, i => (PollResult.timedOut, i)
  | Nat.succ fuel, i =>
      if cancelDue cancelAt i then (PollResult.canceled, i)
      else
        match check i with
        | none => (PollResult.panicked, i + 1)
        | some (_, some e) => (PollResult.checkFailed e, i + 1)
        | some (true, none) => (PollResult.ready, i + 1)
        | some (false, none) => pollLoop check cancelAt fuel (i + 1)

/-- Modelled from the spec: `wait.PollUntilContextTimeout(ctx, interval,
timeout, false, check)` — invoke the check at a fixed interval, stopping
as soon as it reports ready, the check errors, the timeout elapses, or
the context is canceled; the number of full intervals fitting in the
timeout bounds the number of checks. -/
def PollUntilContextTimeout (intervalVal timeoutVal : Nat)
    (check : Nat → Option (Bool × Option String)) (cancelAt : Option Nat) :
    PollResult × Nat :=
  pollLoop check cancelAt (timeoutVal / intervalVal) 0

/-- The poll condition of `WaitForControlPlaneToBeReady`: evaluate
`CheckControlPlaneComponentReadiness` against the control plane fetched
at each tick. -/
def controlPlaneCheck (fetch : Nat → Except String SMCPObj) (i : Nat) :
    Option (Bool × Option String) :=
  CheckControlPlaneComponentReadiness (fetch i)

/-- `WaitForControlPlaneToBeReady` from
`pkg/feature/servicemesh/resources.go`: extract the control-plane data,
then poll component readiness at `interval` under `duration`. -/
def WaitForControlPlaneToBeReady (extract : Except String ControlPlaneRef)
    (fetch : Nat → Except String SMCPObj) (cancelAt : Option Nat) :
    PollResult × Nat :=
  match extract with
  | Except.error e => (PollResult.checkFailed e, 0)
  | Except.ok _ => PollUntilContextTimeout interval duration (controlPlaneCheck fetch) cancelAt

/-- A status condition of the fetched ServiceMeshMember, or a value of
another shape (skipped by the loop's type switch). -/
inductive SMMCondEntry where
  | cond (type status : String)
  | other
deriving DecidableEq, Repr

/-- The relevant fragment of the fetched ServiceMeshMember:
`conditions = none` models `status.conditions` absent. -/
structure SMMObj where
  conditions : Option (List SMMCondEntry)
deriving DecidableEq, Repr

/-- Whether some entry of `status.conditions` is a condition map with
type Ready and status True. -/
def hasReadyCondition : List SMMCondEntry → Bool
  | [] => false
  | SMMCondEntry.cond t st :: rest =>
      if t = "Ready" ∧ st = "True" then true else hasReadyCondition rest
  | SMMCondEntry.other :: rest => hasReadyCondition rest

/-- The poll condition inside `WaitForServiceMeshMember`: a failed `Get`
aborts with its error, an absent condition slice continues, a Ready/True
condition succeeds. -/
def serviceMeshMemberCheck (fetch : Nat → Except String SMMObj) (i : Nat) :
    Option (Bool × Option String) :=
  match fetch i with
  | Except.error e => some (false, some e)
  | Except.ok smm =>
      match smm.conditions with
      | none => some (false, none)
      | some cs => some (hasReadyCondition cs, none)

/-- `WaitForServiceMeshMember` from
`pkg/feature/servicemesh/resources.go`: poll for the default
ServiceMeshMember's Ready condition at `interval` under `duration`. -/
def WaitForServiceMeshMember (fetch : Nat → Except String SMMObj)
    (cancelAt : Option Nat) : PollResult × Nat :=
  PollUntilContextTimeout interval duration (serviceMeshMemberCheck fetch) cancelAt

/-! ## Auxiliary definitions and concrete fixtures -/

/-- The feature names a handler would apply, in registration order. -/
def handlerNames : FeaturesHandlerKind → List String
  | FeaturesHandlerKind.empty => []
  | FeaturesHandlerKind.cluster fs => fs.map FeatureDef.name

/-- An empty cluster: nothing applied, no trackers, no config maps, no
owner conditions. -/
def emptyCluster : ClusterState :=
  { appliedResources := [], trackers := [], configMaps := [], ownerConditions := [] }

/-- A feature whose single precondition always fails, mirroring the
`precondition-fail` feature of the integration test. -/
def preFailFeat : FeatureDef :=
  { name := "precondition-fail"
    enabled := none
    preconditions := [some "during test always fail"]
    postconditions := []
    resources := []
    owner := none
    TargetNamespace := "default"
    controlPlaneData := none
    authorizationData := none
    deleteErr := none }

/-- A feature whose single precondition fails with "boom". -/
def boomFeature : FeatureDef :=
  { name := "boom-feature"
    enabled := none
    preconditions := [some "boom"]
    postconditions := []
    resources := []
    owner := none
    TargetNamespace := "default"
    controlPlaneData := none
    authorizationData := none
    deleteErr := none }

/-- A trivially succeeding feature declared with an owner, mirroring the
`empty-feat-with-owner` feature of the integration test. -/
def featOwned : FeatureDef :=
  { name := "empty-feat-with-owner"
    enabled := none
    preconditions := []
    postconditions := []
    resources := []
    owner := some "default-dsci"
    TargetNamespace := "default"
    controlPlaneData := none
    authorizationData := none
    deleteErr := none }

/-- A feature carrying control-plane and authorization data, mirroring
the `mesh-shared-configmap` feature. -/
def meshSharedFeat : FeatureDef :=
  { name := "mesh-shared-configmap"
    enabled := none
    preconditions := []
    postconditions := []
    resources := []
    owner := none
    TargetNamespace := "opendatahub"
    controlPlaneData := some { Name := "data-science-smcp", Namespace := "istio-system" }
    authorizationData := some { Namespace := "auth-provider", Audiences := some ["https://kubernetes.default.svc"], ProviderName := "opendatahub-auth-provider", AuthConfigSelector := "security.opendatahub.io/authorization-group=default" }
    deleteErr := none }

/-- An RBAC environment where the role write succeeds but the operator
namespace lookup fails. -/
def envNSFail : RBACEnv :=
  { roleWriteErr := none
    operatorNamespace := Except.error "unable to find operator namespace"
    bindingWriteErr := none }

/-! ## Helper lemmas -/

theorem lookupNamed_upsertNamed_self {κ α : Type} [DecidableEq κ]
    (l : List (κ × α)) (k : κ) (v : α) :
    lookupNamed (upsertNamed l k v) k = some v := by
  induction l with
  | nil => simp [upsertNamed, lookupNamed]
  | cons hd tl ih =>
      obtain ⟨k0, w⟩ := hd
      by_cases h : k0 = k
      · simp [upsertNamed, lookupNamed, h]
      · simp [upsertNamed, lookupNamed, h, ih]

theorem foldl_append_singleton {α β : Type} (f : α → β) :
    ∀ (l : List α) (acc : List β),
      l.foldl (fun acc x => acc ++ [f x]) acc = acc ++ l.map f := by
  intro l
  induction l with
  | nil => intro acc; simp
  | cons hd tl ih => intro acc; simp [List.foldl_cons, ih]

theorem pollLoop_count_le (check : Nat → Option (Bool × Option String))
    (cancelAt : Option Nat) :
    ∀ fuel i, (pollLoop check cancelAt fuel i).2 ≤ i + fuel := by
  intro fuel
  induction fuel with
  | zero => intro i; simp [pollLoop]
  | succ fuel ih =>
      intro i
      by_cases hc : cancelDue cancelAt i = true
      · simp [pollLoop, hc]
      · have hc2 : cancelDue cancelAt i = false := by
          simpa using hc
        cases hchk : check i with
        | none => simp [pollLoop, hc2, hchk]
        | some pr =>
            obtain ⟨done, err⟩ := pr
            cases err with
            | some e => simp [pollLoop, hc2, hchk]
            | none =>
                cases done with
                | true => simp [pollLoop, hc2, hchk]
                | false =>
                    have hrec := ih (i + 1)
                    simp only [pollLoop, hc2, hchk, Bool.false_eq_true, if_false]
                    omega

theorem pollLoop_ready (check : Nat → Option (Bool × Option String))
    (cancelAt : Option Nat) :
    ∀ (fuel k i : Nat), k < fuel →
      (∀ j, j < k → check (i + j) = some (false, none)) →
      check (i + k) = some (true, none) →
      (∀ j, j ≤ k → cancelDue cancelAt (i + j) = false) →
      pollLoop check cancelAt fuel i = (PollResult.ready, i + k + 1) := by
  intro fuel
  induction fuel with
  | zero => intro k i hk; omega
  | succ fuel ih =>
      intro k i hk hfalse htrue hcancel
      have hc0 : cancelDue cancelAt i = false := by
        have := hcancel 0 (Nat.zero_le k)
        simpa using this
      cases k with
      | zero =>
          have ht : check i = some (true, none) := by simpa using htrue
          simp [pollLoop, hc0, ht]
      | succ k =>
          have hf0 : check i = some (false, none) := by
            have := hfalse 0 (Nat.succ_pos k)
            simpa using this
          have hrec := ih k (i + 1) (by omega)
            (fun j hj => by
              have := hfalse (j + 1) (by omega)
              have e : i + (j + 1) = i + 1 + j := by omega
              rw [e] at this
              exact this)
            (by
              have e : i + (k + 1) = i + 1 + k := by omega
              rw [e] at htrue
              exact htrue)
            (fun j hj => by
              have := hcancel (j + 1) (by omega)
              have e : i + (j + 1) = i + 1 + j := by omega
              rw [e] at this
              exact this)
          have e2 : i + 1 + k + 1 = i + (k + 1) + 1 := by omega
          rw [e2] at hrec
          simp [pollLoop, hc0, hf0, hrec]

theorem pollLoop_timeout (check : Nat → Option (Bool × Option String))
    (cancelAt : Option Nat) :
    ∀ fuel i,
      (∀ j, j < fuel → check (i + j) = some (false, none)) →
      (∀ j, cancelDue cancelAt j = false) →
      pollLoop check cancelAt fuel i = (PollResult.timedOut, i + fuel) := by
  intro fuel
  induction fuel with
  | zero => intro i _ _; simp [pollLoop]
  | succ fuel ih =>
      intro i hfalse hcancel
      have hf0 : check i = some (false, none) := by
        have := hfalse 0 (Nat.succ_pos fuel)
        simpa using this
      have hrec := ih (i + 1)
        (fun j hj => by
          have := hfalse (j + 1) (by omega)
          have e : i + (j + 1) = i + 1 + j := by omega
          rw [e] at this
          exact this)
        hcancel
      have e2 : i + 1 + fuel = i + (fuel + 1) := by omega
      rw [e2] at hrec
      simp [pollLoop, hcancel i, hf0, hrec]

theorem pollLoop_canceled (check : Nat → Option (Bool × Option String))
    (c : Nat) :
    ∀ fuel i, i ≤ c → c - i < fuel →
      (∀ j, i ≤ j → j < c → check j = some (false, none)) →
      pollLoop check (some c) fuel i = (PollResult.canceled, c) := by
  intro fuel
  induction fuel with
  | zero => intro i _ h; omega
  | succ fuel ih =>
      intro i hic hfuel hfalse
      by_cases hci : c ≤ i
      · have : i = c := by omega
        subst this
        simp [pollLoop, cancelDue]
      · have hc0 : cancelDue (some c) i = false := by
          simp [cancelDue]
          omega
        have hf0 : check i = some (false, none) := hfalse i (Nat.le_refl i) (by omega)
        have hrec := ih (i + 1) (by omega) (by omega)
          (fun j hj1 hj2 => hfalse j (by omega) hj2)
        simp [pollLoop, hc0, hf0, hrec]


theorem featuresApply_cons_fail (f : FeatureDef) (rest : List FeatureDef)
    (s sf : ClusterState) (e : String) (hf : featureApply f s = (sf, some e)) :
    featuresApply (f :: rest) s = (sf, [f.name], some e) := by
  simp [featuresApply, hf]

theorem featuresApply_cons_ok (f : FeatureDef) (rest : List FeatureDef)
    (s sf sr : ClusterState) (trr : List String) (rr : Option String)
    (hf : featureApply f s = (sf, none))
    (hrest : featuresApply rest sf = (sr, trr, rr)) :
    featuresApply (f :: rest) s = (sr, f.name :: trr, rr) := by
  simp [featuresApply, hf, hrest]

theorem featuresApply_none_trace (fs : List FeatureDef) :
    ∀ s s1 tr, featuresApply fs s = (s1, tr, none) →
      tr = fs.map FeatureDef.name := by
  induction fs with
  | nil =>
      intro s s1 tr h
      simp [featuresApply, Prod.mk.injEq] at h
      simp [h.2]
  | cons f rest ih =>
      intro s s1 tr h
      cases hf : featureApply f s with
      | mk sf rf =>
          cases rf with
          | some e =>
              rw [featuresApply_cons_fail f rest s sf e hf] at h
              simp at h
          | none =>
              cases hrest : featuresApply rest sf with
              | mk sr pr =>
                  obtain ⟨trr, rr⟩ := pr
                  rw [featuresApply_cons_ok f rest s sf sr trr rr hf hrest] at h
                  simp only [Prod.mk.injEq] at h
                  obtain ⟨rfl, rfl, rfl⟩ := h
                  have ht := ih sf sr trr hrest
                  simp [ht]

theorem featuresApply_prefix_fail (fpre : List FeatureDef) (f : FeatureDef)
    (fpost : List FeatureDef) :
    ∀ s s1 tr1, featuresApply fpre s = (s1, tr1, none) →
    ∀ s2 e, featureApply f s1 = (s2, some e) →
    featuresApply (fpre ++ f :: fpost) s = (s2, tr1 ++ [f.name], some e) := by
  induction fpre with
  | nil =>
      intro s s1 tr1 hpre s2 e hf
      simp only [featuresApply, Prod.mk.injEq] at hpre
      obtain ⟨rfl, rfl, -⟩ := hpre
      simpa using featuresApply_cons_fail f fpost s s2 e hf
  | cons c rest ih =>
      intro s s1 tr1 hpre s2 e hf
      cases hc : featureApply c s with
      | mk sc rc =>
          cases rc with
          | some e0 =>
              rw [featuresApply_cons_fail c rest s sc e0 hc] at hpre
              simp at hpre
          | none =>
              cases hrest : featuresApply rest sc with
              | mk sr pr =>
                  obtain ⟨trr, rr⟩ := pr
                  rw [featuresApply_cons_ok c rest s sc sr trr rr hc hrest] at hpre
                  simp only [Prod.mk.injEq] at hpre
                  obtain ⟨rfl, rfl, rfl⟩ := hpre
                  have hrec := ih sc sr trr hrest s2 e hf
                  have := featuresApply_cons_ok c (rest ++ f :: fpost) s sc s2
                    (trr ++ [f.name]) (some e) hc hrec
                  simpa using this

theorem applyCapabilities_cons_fail (cap : HandlerWithReporter)
    (rest : List HandlerWithReporter) (s sc : ClusterState)
    (trc : List String) (e : String)
    (hcap : handlerWithReporterApply cap s = (sc, trc, some e)) :
    applyCapabilities (cap :: rest) s = (sc, trc, some e) := by
  simp [applyCapabilities, hcap]

theorem applyCapabilities_cons_ok (cap : HandlerWithReporter)
    (rest : List HandlerWithReporter) (s sc sr : ClusterState)
    (trc trr : List String) (rr : Option String)
    (hcap : handlerWithReporterApply cap s = (sc, trc, none))
    (hrest : applyCapabilities rest sc = (sr, trr, rr)) :
    applyCapabilities (cap :: rest) s = (sr, trc ++ trr, rr) := by
  simp [applyCapabilities, hcap, hrest]

theorem handlerWithReporterApply_none_trace (cap : HandlerWithReporter)
    (s sc : ClusterState) (trc : List String)
    (hcap : handlerWithReporterApply cap s = (sc, trc, none)) :
    trc = handlerNames cap.handler := by
  cases hk : cap.handler with
  | empty =>
      rw [handlerWithReporterApply, hk] at hcap
      simp [handlerApply] at hcap
      simp [handlerNames, hcap.2]
  | cluster fs =>
      rw [handlerWithReporterApply, hk] at hcap
      cases hfs : featuresApply fs s with
      | mk sfs pfs =>
          obtain ⟨trfs, rfs⟩ := pfs
          rw [handlerApply, hfs] at hcap
          simp only [Prod.mk.injEq] at hcap
          obtain ⟨-, rfl, rfl⟩ := hcap
          rw [handlerNames]
          exact featuresApply_none_trace fs s sfs trfs hfs

theorem applyCapabilities_none_trace (caps : List HandlerWithReporter) :
    ∀ s s1 tr, applyCapabilities caps s = (s1, tr, none) →
      tr = (caps.map fun c => handlerNames c.handler).flatten := by
  induction caps with
  | nil =>
      intro s s1 tr h
      simp [applyCapabilities, Prod.mk.injEq] at h
      simp [h.2]
  | cons cap rest ih =>
      intro s s1 tr h
      cases hcap : handlerWithReporterApply cap s with
      | mk sc pc =>
          obtain ⟨trc, rc⟩ := pc
          cases rc with
          | some e =>
              rw [applyCapabilities_cons_fail cap rest s sc trc e hcap] at h
              simp at h
          | none =>
              cases hrest : applyCapabilities rest sc with
              | mk sr pr =>
                  obtain ⟨trr, rr⟩ := pr
                  rw [applyCapabilities_cons_ok cap rest s sc sr trc trr rr hcap hrest] at h
                  simp only [Prod.mk.injEq] at h
                  obtain ⟨rfl, rfl, rfl⟩ := h
                  have h1 := handlerWithReporterApply_none_trace cap s sc trc hcap
                  have h2 := ih sc sr trr hrest
                  simp [h1, h2]

theorem applyCapabilities_prefix_fail (pre : List HandlerWithReporter)
    (cap : HandlerWithReporter) (post : List HandlerWithReporter) :
    ∀ s s1 tr1, applyCapabilities pre s = (s1, tr1, none) →
    ∀ s2 tr2 e, handlerWithReporterApply cap s1 = (s2, tr2, some e) →
    applyCapabilities (pre ++ cap :: post) s = (s2, tr1 ++ tr2, some e) := by
  induction pre with
  | nil =>
      intro s s1 tr1 hpre s2 tr2 e hcap
      simp only [applyCapabilities, Prod.mk.injEq] at hpre
      obtain ⟨rfl, rfl, -⟩ := hpre
      simpa using applyCapabilities_cons_fail cap post s s2 tr2 e hcap
  | cons c rest ih =>
      intro s s1 tr1 hpre s2 tr2 e hcap
      cases hc : handlerWithReporterApply c s with
      | mk sc pc =>
          obtain ⟨trc, rc⟩ := pc
          cases rc with
          | some e0 =>
              rw [applyCapabilities_cons_fail c rest s sc trc e0 hc] at hpre
              simp at hpre
          | none =>
              cases hrest : applyCapabilities rest sc with
              | mk sr pr =>
                  obtain ⟨trr, rr⟩ := pr
                  rw [applyCapabilities_cons_ok c rest s sc sr trc trr rr hc hrest] at hpre
                  simp only [Prod.mk.injEq] at hpre
                  obtain ⟨rfl, rfl, rfl⟩ := hpre
                  have hrec := ih sc sr trr hrest s2 tr2 e hcap
                  have := applyCapabilities_cons_ok c (rest ++ cap :: post) s sc s2
                    trc (trr ++ tr2) (some e) hc hrec
                  simpa [List.append_assoc] using this

theorem deleteCapabilities_cons_fail (cap : HandlerWithReporter)
    (rest : List HandlerWithReporter) (s sc : ClusterState)
    (trc : List String) (e : String)
    (hcap : handlerWithReporterDelete cap s = (sc, trc, some e)) :
    deleteCapabilities (cap :: rest) s = (sc, trc, some e) := by
  simp [deleteCapabilities, hcap]

theorem deleteCapabilities_cons_ok (cap : HandlerWithReporter)
    (rest : List HandlerWithReporter) (s sc sr : ClusterState)
    (trc trr : List String) (rr : Option String)
    (hcap : handlerWithReporterDelete cap s = (sc, trc, none))
    (hrest : deleteCapabilities rest sc = (sr, trr, rr)) :
    deleteCapabilities (cap :: rest) s = (sr, trc ++ trr, rr) := by
  simp [deleteCapabilities, hcap, hrest]

theorem deleteCapabilities_prefix_fail (pre : List HandlerWithReporter)
    (cap : HandlerWithReporter) (post : List HandlerWithReporter) :
    ∀ s s1 tr1, deleteCapabilities pre s = (s1, tr1, none) →
    ∀ s2 tr2 e, handlerWithReporterDelete cap s1 = (s2, tr2, some e) →
    deleteCapabilities (pre ++ cap :: post) s = (s2, tr1 ++ tr2, some e) := by
  induction pre with
  | nil =>
      intro s s1 tr1 hpre s2 tr2 e hcap
      simp only [deleteCapabilities, Prod.mk.injEq] at hpre
      obtain ⟨rfl, rfl, -⟩ := hpre
      simpa using deleteCapabilities_cons_fail cap post s s2 tr2 e hcap
  | cons c rest ih =>
      intro s s1 tr1 hpre s2 tr2 e hcap
      cases hc : handlerWithReporterDelete c s with
      | mk sc pc =>
          obtain ⟨trc, rc⟩ := pc
          cases rc with
          | some e0 =>
              rw [deleteCapabilities_cons_fail c rest s sc trc e0 hc] at hpre
              simp at hpre
          | none =>
              cases hrest : deleteCapabilities rest sc with
              | mk sr pr =>
                  obtain ⟨trr, rr⟩ := pr
                  rw [deleteCapabilities_cons_ok c rest s sc sr trc trr rr hc hrest] at hpre
                  simp only [Prod.mk.injEq] at hpre
                  obtain ⟨rfl, rfl, rfl⟩ := hpre
                  have hrec := ih sc sr trr hrest s2 tr2 e hcap
                  have := deleteCapabilities_cons_ok c (rest ++ cap :: post) s sc s2
                    trc (trr ++ tr2) (some e) hc hrec
                  simpa [List.append_assoc] using this

/-! ## Claim theorems -/

/-- C1: for every fetched control plane whose status contains a
readiness.components map with its ready/pending/unready lists,
`CheckControlPlaneComponentReadiness` returns ready = true exactly when
there are zero pending components, zero unready components and strictly
more than zero ready components; a control plane with zero components in
every list is reported not ready. -/
theorem C1_control_plane_readiness_iff (m : List (String × GoVal)) (r p u : Nat)
    (hr : lookupKey m "ready" = some (GoVal.list r))
    (hp : lookupKey m "pending" = some (GoVal.list p))
    (hu : lookupKey m "unready" = some (GoVal.list u)) :
    (CheckControlPlaneComponentReadiness (Except.ok ⟨some m⟩) = some (true, none)
      ↔ (p = 0 ∧ u = 0 ∧ 0 < r)) ∧
    (r = 0 →
      CheckControlPlaneComponentReadiness (Except.ok ⟨some m⟩) = some (false, none)) := by
  have hmain : CheckControlPlaneComponentReadiness (Except.ok ⟨some m⟩) =
      some (decide (p = 0 ∧ u = 0 ∧ 0 < r), none) := by
    simp only [CheckControlPlaneComponentReadiness, hr, hp, hu, assertListLen]
  constructor
  · rw [hmain]
    simp
  · intro hr0
    subst hr0
    rw [hmain]
    simp

/-- C1 witness: a control plane with one ready, zero pending and zero
unready components is reported ready. -/
theorem C1_control_plane_readiness_iff_witness :
    CheckControlPlaneComponentReadiness
      (Except.ok ⟨some [("ready", GoVal.list 1), ("pending", GoVal.list 0), ("unready", GoVal.list 0)]⟩) =
      some (true, none) :=
  (C1_control_plane_readiness_iff
      [("ready", GoVal.list 1), ("pending", GoVal.list 0), ("unready", GoVal.list 0)]
      1 0 0 (by decide) (by decide) (by decide)).1.mpr (by decide)

/-- C7 counterexample: when the fetched object's
status.readiness.components map is present but empty, the reads of its
entries do not succeed — the forced type assertion panics (modelled as
`none`) instead of returning a (bool, error) pair, refuting the claim
that the function always returns normally whenever the components map is
present. -/
theorem C7_counterexample_panic :
    CheckControlPlaneComponentReadiness (Except.ok ⟨some []⟩) = none := rfl

/-- C7 (amended): `CheckControlPlaneComponentReadiness` returns a
(bool, error) pair normally whenever the fetch fails, the components map
is absent, or the components map is present and its ready, pending and
unready entries are all lists; only a present map with a missing or
non-list entry makes the forced type assertions panic. -/
theorem C7_returns_normally (fetch : Except String SMCPObj)
    (h : ∀ m, fetch = Except.ok ⟨some m⟩ →
        (assertListLen (lookupKey m "ready")).isSome = true ∧
        (assertListLen (lookupKey m "pending")).isSome = true ∧
        (assertListLen (lookupKey m "unready")).isSome = true) :
    (CheckControlPlaneComponentReadiness fetch).isSome = true := by
  cases fetch with
  | error e => rfl
  | ok obj =>
      obtain ⟨cm⟩ := obj
      cases cm with
      | none => rfl
      | some m =>
          obtain ⟨h1, h2, h3⟩ := h m rfl
          obtain ⟨r, hr⟩ := Option.isSome_iff_exists.mp h1
          obtain ⟨p, hp⟩ := Option.isSome_iff_exists.mp h2
          obtain ⟨u, hu⟩ := Option.isSome_iff_exists.mp h3
          simp [CheckControlPlaneComponentReadiness, hr, hp, hu]

/-- C7 witness: a failed fetch still produces a normal (bool, error)
return. -/
theorem C7_returns_normally_witness :
    (CheckControlPlaneComponentReadiness (Except.error "not found")).isSome = true :=
  C7_returns_normally (Except.error "not found")
    (fun _m hm => Except.noConfusion hm)

/-- C9: for every list of object references, `createPolicyRules` returns
exactly one policy rule whose APIGroups and Resources have one entry per
input reference in input order, and whose Verbs are exactly get, list,
watch, update, patch — never create or delete. -/
theorem C9_policy_rules_shape (refs : List ObjectReference) :
    (createPolicyRules refs).length = 1 ∧
    ∃ rule, createPolicyRules refs = [rule] ∧
      rule.APIGroups = refs.map ObjectReference.Group ∧
      rule.Resources = refs.map ObjectReference.Resources ∧
      rule.Verbs = ["get", "list", "watch", "update", "patch"] ∧
      "create" ∉ rule.Verbs ∧
      "delete" ∉ rule.Verbs := by
  refine ⟨rfl, ?_⟩
  refine ⟨{ APIGroups := refs.map ObjectReference.Group
            Resources := refs.map ObjectReference.Resources
            Verbs := ["get", "list", "watch", "update", "patch"] }, ?_, rfl, rfl, rfl, ?_, ?_⟩
  · simp only [createPolicyRules]
    rw [foldl_append_singleton ObjectReference.Group refs []]
    rw [foldl_append_singleton ObjectReference.Resources refs []]
    simp
  · show ("create" : String) ∉ ["get", "list", "watch", "update", "patch"]
    decide
  · show ("delete" : String) ∉ ["get", "list", "watch", "update", "patch"]
    decide

/-- C2: a feature with a failing precondition persists a tracker with
phase Error and a Degraded condition with status True and reason
PreConditions, and applies no resources; a feature whose preconditions
pass but whose postcondition fails persists a tracker with phase Error
and a Degraded condition with status True and reason PostConditions
while the resources it applied remain in place, and in both cases the
failure is returned. -/
theorem C2_tracker_degraded_reasons (f : FeatureDef) (s : ClusterState) (e : String)
    (hen : ¬ f.enabled = some false) :
    (firstErr f.preconditions = some e →
       (featureApply f s).2 = some e ∧
       (featureApply f s).1.appliedResources = s.appliedResources ∧
       ∃ t, lookupNamed (featureApply f s).1.trackers f.name = some t ∧
         t.phase = "Error" ∧
         ({ type := "Degraded", status := "True", reason := "PreConditions", message := e } : Condition) ∈ t.conditions) ∧
    (firstErr f.preconditions = none → firstErr f.postconditions = some e →
       (featureApply f s).2 = some e ∧
       (featureApply f s).1.appliedResources = s.appliedResources ++ f.resources ∧
       ∃ t, lookupNamed (featureApply f s).1.trackers f.name = some t ∧
         t.phase = "Error" ∧
         ({ type := "Degraded", status := "True", reason := "PostConditions", message := e } : Condition) ∈ t.conditions) := by
  constructor
  · intro hpre
    simp only [featureApply, if_neg hen, hpre]
    refine ⟨by simp, by simp, ?_⟩
    exact ⟨_, lookupNamed_upsertNamed_self s.trackers f.name _, rfl, by simp⟩
  · intro hpre hpost
    simp only [featureApply, if_neg hen, hpre, hpost]
    refine ⟨by simp, by simp, ?_⟩
    exact ⟨_, lookupNamed_upsertNamed_self _ f.name _, rfl, by simp⟩

/-- C2 witness: the precondition-fail feature yields an Error tracker
with a Degraded/True/PreConditions condition and no applied resources. -/
theorem C2_tracker_degraded_reasons_witness :
    (featureApply preFailFeat emptyCluster).2 = some "during test always fail" ∧
    (featureApply preFailFeat emptyCluster).1.appliedResources = ([] : List String) ∧
    ∃ t, lookupNamed (featureApply preFailFeat emptyCluster).1.trackers "precondition-fail" = some t ∧
      t.phase = "Error" ∧
      ({ type := "Degraded", status := "True", reason := "PreConditions", message := "during test always fail" } : Condition) ∈ t.conditions :=
  (C2_tracker_degraded_reasons preFailFeat emptyCluster "during test always fail"
    (by decide)).1 rfl

/-- C8: a feature applied successfully persists a tracker whose owner
references are non-empty exactly when the feature was declared with an
owner — the singleton owner reference when built with `OwnedBy`, the
empty list otherwise. -/
theorem C8_tracker_owner_references (f : FeatureDef) (s : ClusterState)
    (hen : ¬ f.enabled = some false)
    (hsucc : (featureApply f s).2 = none) :
    ∃ t, lookupNamed (featureApply f s).1.trackers f.name = some t ∧
      (t.ownerReferences ≠ [] ↔ f.owner ≠ none) ∧
      (∀ o, f.owner = some o → t.ownerReferences = [o]) ∧
      (f.owner = none → t.ownerReferences = []) := by
  cases hpre : firstErr f.preconditions with
  | some e =>
      have h2 : (featureApply f s).2 = some e := by
        simp only [featureApply, if_neg hen, hpre]
      rw [h2] at hsucc
      exact Option.noConfusion hsucc
  | none =>
      cases hpost : firstErr f.postconditions with
      | some e =>
          have h2 : (featureApply f s).2 = some e := by
            simp only [featureApply, if_neg hen, hpre, hpost]
          rw [h2] at hsucc
          exact Option.noConfusion hsucc
      | none =>
          simp only [featureApply, if_neg hen, hpre, hpost]
          refine ⟨_, lookupNamed_upsertNamed_self _ f.name _, ?_, ?_, ?_⟩
          · cases ho : f.owner with
            | some o => simp [ownerRefs, ho]
            | none => simp [ownerRefs, ho]
          · intro o ho; simp [ownerRefs, ho]
          · intro ho; simp [ownerRefs, ho]

/-- C8 witness: the feature declared with an owner yields a tracker with
exactly its owner reference. -/
theorem C8_tracker_owner_references_witness :
    ∃ t, lookupNamed (featureApply featOwned emptyCluster).1.trackers "empty-feat-with-owner" = some t ∧
      (t.ownerReferences ≠ [] ↔ featOwned.owner ≠ none) ∧
      (∀ o, featOwned.owner = some o → t.ownerReferences = [o]) ∧
      (featOwned.owner = none → t.ownerReferences = []) :=
  C8_tracker_owner_references featOwned emptyCluster (by decide) rfl

/-- C3: when the authorino-operator subscription does not exist,
`authorizationCapability` returns without error a handler-with-reporter
over the empty features handler whose condition has type
CapabilityServiceMeshAuthorization, status False and reason
MissingOperator, and whose Apply and Delete succeed without touching
applied resources, trackers or config maps. -/
theorem C3_missing_operator_inert (cond : Condition)
    (authzFeatures : List FeatureDef) (s : ClusterState) :
    ∃ hnd, authorizationCapability (Except.ok false) cond authzFeatures = Except.ok hnd ∧
      hnd.handler = FeaturesHandlerKind.empty ∧
      hnd.condition.type = "CapabilityServiceMeshAuthorization" ∧
      hnd.condition.status = "False" ∧
      hnd.condition.reason = "MissingOperator" ∧
      handlerApply hnd.handler s = (s, [], none) ∧
      handlerDelete hnd.handler s = (s, [], none) ∧
      (handlerWithReporterApply hnd s).2.2 = none ∧
      (handlerWithReporterDelete hnd s).2.2 = none ∧
      (handlerWithReporterApply hnd s).1.appliedResources = s.appliedResources ∧
      (handlerWithReporterApply hnd s).1.trackers = s.trackers ∧
      (handlerWithReporterApply hnd s).1.configMaps = s.configMaps ∧
      (handlerWithReporterDelete hnd s).1.appliedResources = s.appliedResources ∧
      (handlerWithReporterDelete hnd s).1.trackers = s.trackers ∧
      (handlerWithReporterDelete hnd s).1.configMaps = s.configMaps := by
  refine ⟨_, rfl, rfl, rfl, rfl, rfl, rfl, rfl, rfl, rfl, rfl, rfl, rfl, rfl, rfl, rfl⟩

/-- C4: with management state Managed, a reconciliation pass applies the
capabilities — and the features inside each handler — strictly in
construction/registration order; the first Apply (respectively Delete)
that returns an error stops the loop, later capabilities are not
attempted, and the error is returned unchanged. -/
theorem C4_fail_fast_in_order :
    (∀ caps s, configureServiceMesh (some ManagementState.Managed) caps s = applyCapabilities caps s) ∧
    (∀ caps s, removeServiceMesh (some ManagementState.Managed) caps s = deleteCapabilities caps s) ∧
    (∀ caps s s1 tr, applyCapabilities caps s = (s1, tr, none) →
        tr = (caps.map fun c => handlerNames c.handler).flatten) ∧
    (∀ pre cap post s s1 tr1 s2 tr2 e,
        applyCapabilities pre s = (s1, tr1, none) →
        handlerWithReporterApply cap s1 = (s2, tr2, some e) →
        applyCapabilities (pre ++ cap :: post) s = (s2, tr1 ++ tr2, some e)) ∧
    (∀ pre cap post s s1 tr1 s2 tr2 e,
        deleteCapabilities pre s = (s1, tr1, none) →
        handlerWithReporterDelete cap s1 = (s2, tr2, some e) →
        deleteCapabilities (pre ++ cap :: post) s = (s2, tr1 ++ tr2, some e)) ∧
    (∀ fpre f fpost s s1 tr1 s2 e,
        featuresApply fpre s = (s1, tr1, none) →
        featureApply f s1 = (s2, some e) →
        featuresApply (fpre ++ f :: fpost) s = (s2, tr1 ++ [f.name], some e)) := by
  refine ⟨fun caps s => rfl, fun caps s => rfl, ?_, ?_, ?_, ?_⟩
  · intro caps s s1 tr h
    exact applyCapabilities_none_trace caps s s1 tr h
  · intro pre cap post s s1 tr1 s2 tr2 e h1 h2
    exact applyCapabilities_prefix_fail pre cap post s s1 tr1 h1 s2 tr2 e h2
  · intro pre cap post s s1 tr1 s2 tr2 e h1 h2
    exact deleteCapabilities_prefix_fail pre cap post s s1 tr1 h1 s2 tr2 e h2
  · intro fpre f fpost s s1 tr1 s2 e h1 h2
    exact featuresApply_prefix_fail fpre f fpost s s1 tr1 h1 s2 e h2

/-- C4 witness: a first feature failing its precondition stops the pass
with that error, attempting only that feature. -/
theorem C4_fail_fast_in_order_witness :
    featuresApply ([] ++ boomFeature :: [featOwned]) emptyCluster =
      ({ appliedResources := []
         trackers := [("boom-feature",
           { phase := "Error"
             conditions := [{ type := "Degraded", status := "True", reason := "PreConditions", message := "boom" }]
             ownerReferences := [] })]
         configMaps := []
         ownerConditions := [] },
       [] ++ ["boom-feature"], some "boom") :=
  C4_fail_fast_in_order.2.2.2.2.2 [] boomFeature [featOwned]
    emptyCluster emptyCluster [] _ "boom" rfl (by decide)

/-- C5: both readiness polls of the service-mesh feature library run at
the fixed 2-second interval under the 5-minute timeout, hence at most
150 checks; they return success as soon as the check first reports
ready, a timeout-kind result once the bound elapses without readiness,
and stop earlier when the context is canceled. -/
theorem C5_poll_bounded_terminating :
    interval = 2 ∧ duration = 300 ∧ duration / interval = 150 ∧
    (∀ ex fetch cancelAt, (WaitForControlPlaneToBeReady ex fetch cancelAt).2 ≤ 150) ∧
    (∀ fetch cancelAt, (WaitForServiceMeshMember fetch cancelAt).2 ≤ 150) ∧
    (∀ fetch k, k < 150 →
        (∀ j, j < k → serviceMeshMemberCheck fetch j = some (false, none)) →
        serviceMeshMemberCheck fetch k = some (true, none) →
        WaitForServiceMeshMember fetch none = (PollResult.ready, k + 1)) ∧
    (∀ cp fetch k, k < 150 →
        (∀ j, j < k → controlPlaneCheck fetch j = some (false, none)) →
        controlPlaneCheck fetch k = some (true, none) →
        WaitForControlPlaneToBeReady (Except.ok cp) fetch none = (PollResult.ready, k + 1)) ∧
    (∀ fetch, (∀ j, j < 150 → serviceMeshMemberCheck fetch j = some (false, none)) →
        WaitForServiceMeshMember fetch none = (PollResult.timedOut, 150)) ∧
    (∀ cp fetch, (∀ j, j < 150 → controlPlaneCheck fetch j = some (false, none)) →
        WaitForControlPlaneToBeReady (Except.ok cp) fetch none = (PollResult.timedOut, 150)) ∧
    (∀ fetch c, c < 150 → (∀ j, j < c → serviceMeshMemberCheck fetch j = some (false, none)) →
        WaitForServiceMeshMember fetch (some c) = (PollResult.canceled, c)) ∧
    (∀ cp fetch c, c < 150 → (∀ j, j < c → controlPlaneCheck fetch j = some (false, none)) →
        WaitForControlPlaneToBeReady (Except.ok cp) fetch (some c) = (PollResult.canceled, c)) := by
  have hdiv : duration / interval = 150 := by norm_num [interval, duration]
  refine ⟨rfl, rfl, hdiv, ?_, ?_, ?_, ?_, ?_, ?_, ?_, ?_⟩
  · intro ex fetch cancelAt
    cases ex with
    | error e => simp [WaitForControlPlaneToBeReady]
    | ok cp =>
        have := pollLoop_count_le (controlPlaneCheck fetch) cancelAt 150 0
        simpa [WaitForControlPlaneToBeReady, PollUntilContextTimeout, hdiv] using this
  · intro fetch cancelAt
    have := pollLoop_count_le (serviceMeshMemberCheck fetch) cancelAt 150 0
    simpa [WaitForServiceMeshMember, PollUntilContextTimeout, hdiv] using this
  · intro fetch k hk hfalse htrue
    have := pollLoop_ready (serviceMeshMemberCheck fetch) none 150 k 0 hk
      (fun j hj => by simpa using hfalse j hj)
      (by simpa using htrue)
      (fun j _ => rfl)
    simpa [WaitForServiceMeshMember, PollUntilContextTimeout, hdiv] using this
  · intro cp fetch k hk hfalse htrue
    have := pollLoop_ready (controlPlaneCheck fetch) none 150 k 0 hk
      (fun j hj => by simpa using hfalse j hj)
      (by simpa using htrue)
      (fun j _ => rfl)
    simpa [WaitForControlPlaneToBeReady, PollUntilContextTimeout, hdiv] using this
  · intro fetch hfalse
    have := pollLoop_timeout (serviceMeshMemberCheck fetch) none 150 0
      (fun j hj => by simpa using hfalse j hj)
      (fun j => rfl)
    simpa [WaitForServiceMeshMember, PollUntilContextTimeout, hdiv] using this
  · intro cp fetch hfalse
    have := pollLoop_timeout (controlPlaneCheck fetch) none 150 0
      (fun j hj => by simpa using hfalse j hj)
      (fun j => rfl)
    simpa [WaitForControlPlaneToBeReady, PollUntilContextTimeout, hdiv] using this
  · intro fetch c hc hfalse
    have := pollLoop_canceled (serviceMeshMemberCheck fetch) c 150 0
      (Nat.zero_le c) (by omega)
      (fun j _ hj => hfalse j hj)
    simpa [WaitForServiceMeshMember, PollUntilContextTimeout, hdiv] using this
  · intro cp fetch c hc hfalse
    have := pollLoop_canceled (controlPlaneCheck fetch) c 150 0
      (Nat.zero_le c) (by omega)
      (fun j _ hj => hfalse j hj)
    simpa [WaitForControlPlaneToBeReady, PollUntilContextTimeout, hdiv] using this

/-- C5 witness: a member resource that never carries conditions makes the
poll time out after exactly 150 checks. -/
theorem C5_poll_bounded_terminating_witness :
    WaitForServiceMeshMember (fun _ => Except.ok ⟨none⟩) none = (PollResult.timedOut, 150) :=
  C5_poll_bounded_terminating.2.2.2.2.2.2.2.1 (fun _ => Except.ok ⟨none⟩)
    (fun _j _hj => rfl)

/-- C6: with the control-plane (respectively authorization) data entry
present, `MeshRefs` creates or updates the config map named
`ConfigMapMeshRef` in the feature's target namespace with exactly the
keys CONTROL_PLANE_NAME and MESH_NAMESPACE from the control-plane data,
and `AuthRefs` the config map named `ConfigMapAuthRef` in the same
namespace with exactly the keys AUTH_AUDIENCE, AUTH_PROVIDER and
AUTHORINO_LABEL from the authorization data; with the entry absent each
returns a wrapped extraction error and publishes nothing. -/
theorem C6_config_map_side_channel (f : FeatureDef) (s : ClusterState)
    (cp : ControlPlaneRef) (auth : AuthorizationRef) :
    (f.controlPlaneData = some cp →
       (MeshRefs f s).2 = none ∧
       lookupNamed (MeshRefs f s).1.configMaps (f.TargetNamespace, ConfigMapMeshRef) =
         some [("CONTROL_PLANE_NAME", cp.Name), ("MESH_NAMESPACE", cp.Namespace)]) ∧
    (f.controlPlaneData = none →
       MeshRefs f s = (s, some ("failed to get control plane struct: " ++ "DataNotFound: control-plane"))) ∧
    (f.authorizationData = some auth →
       (AuthRefs f s).2 = none ∧
       lookupNamed (AuthRefs f s).1.configMaps (f.TargetNamespace, ConfigMapAuthRef) =
         some [("AUTH_AUDIENCE", audiencesValue auth.Audiences),
               ("AUTH_PROVIDER", auth.ProviderName),
               ("AUTHORINO_LABEL", auth.AuthConfigSelector)]) ∧
    (f.authorizationData = none →
       AuthRefs f s = (s, some ("could not get auth from feature: " ++ "DataNotFound: authorization"))) := by
  refine ⟨?_, ?_, ?_, ?_⟩
  · intro hcp
    simp only [MeshRefs, extractControlPlane, hcp]
    exact ⟨by trivial, lookupNamed_upsertNamed_self _ _ _⟩
  · intro hcp
    simp only [MeshRefs, extractControlPlane, hcp]
  · intro hauth
    simp only [AuthRefs, extractAuthorization, hauth]
    exact ⟨by trivial, lookupNamed_upsertNamed_self _ _ _⟩
  · intro hauth
    simp only [AuthRefs, extractAuthorization, hauth]

/-- C6 witness: the mesh-shared-configmap feature publishes both config
maps with exactly the expected keys. -/
theorem C6_config_map_side_channel_witness :
    (MeshRefs meshSharedFeat emptyCluster).2 = none ∧
    lookupNamed (MeshRefs meshSharedFeat emptyCluster).1.configMaps
        ("opendatahub", ConfigMapMeshRef) =
      some [("CONTROL_PLANE_NAME", "data-science-smcp"), ("MESH_NAMESPACE", "istio-system")] :=
  (C6_config_map_side_channel meshSharedFeat emptyCluster
      { Name := "data-science-smcp", Namespace := "istio-system" }
      { Namespace := "auth-provider", Audiences := some ["https://kubernetes.default.svc"], ProviderName := "opendatahub-auth-provider", AuthConfigSelector := "security.opendatahub.io/authorization-group=default" }).1
    rfl

/-- C10: `CreateOrUpdatePlatformRBAC` writes the ClusterRole first and
the ClusterRoleBinding — bound to the operator service account in the
operator namespace — second, and is not atomic on error: a failing
namespace lookup or binding write after a successful role write returns
an error while the ClusterRole stays in place; a failing role write
changes nothing. -/
theorem C10_rbac_order_not_atomic (env : RBACEnv) (roleName : String)
    (refs : List ObjectReference) (s : RBACState) :
    (∀ e, env.roleWriteErr = some e →
       CreateOrUpdatePlatformRBAC env roleName refs s =
         (s, some ("failed creating cluster role: " ++ e))) ∧
    (∀ eNS, env.roleWriteErr = none → env.operatorNamespace = Except.error eNS →
       (CreateOrUpdatePlatformRBAC env roleName refs s).2 =
         some ("failed getting operator namespace: " ++ eNS) ∧
       lookupNamed (CreateOrUpdatePlatformRBAC env roleName refs s).1.clusterRoles roleName =
         some (createPolicyRules refs) ∧
       (CreateOrUpdatePlatformRBAC env roleName refs s).1.clusterRoleBindings =
         s.clusterRoleBindings) ∧
    (∀ nsOp e, env.roleWriteErr = none → env.operatorNamespace = Except.ok nsOp →
       env.bindingWriteErr = some e →
       (CreateOrUpdatePlatformRBAC env roleName refs s).2 =
         some ("failed creating cluster role binding: " ++ e) ∧
       lookupNamed (CreateOrUpdatePlatformRBAC env roleName refs s).1.clusterRoles roleName =
         some (createPolicyRules refs) ∧
       (CreateOrUpdatePlatformRBAC env roleName refs s).1.clusterRoleBindings =
         s.clusterRoleBindings) ∧
    (∀ nsOp, env.roleWriteErr = none → env.operatorNamespace = Except.ok nsOp →
       env.bindingWriteErr = none →
       (CreateOrUpdatePlatformRBAC env roleName refs s).2 = none ∧
       lookupNamed (CreateOrUpdatePlatformRBAC env roleName refs s).1.clusterRoles roleName =
         some (createPolicyRules refs) ∧
       lookupNamed (CreateOrUpdatePlatformRBAC env roleName refs s).1.clusterRoleBindings roleName =
         some (createPlatformRoleBinding roleName nsOp) ∧
       (createPlatformRoleBinding roleName nsOp).1 =
         [{ Kind := "ServiceAccount", Name := "opendatahub-operator-controller-manager", Namespace := nsOp }] ∧
       (createPlatformRoleBinding roleName nsOp).2 =
         { APIGroup := "rbac.authorization.k8s.io", Kind := "ClusterRole", Name := roleName }) := by
  refine ⟨?_, ?_, ?_, ?_⟩
  · intro e he
    simp only [CreateOrUpdatePlatformRBAC, CreateOrUpdateClusterRole, he]
  · intro eNS hrole hns
    simp only [CreateOrUpdatePlatformRBAC, CreateOrUpdateClusterRole, hrole, hns]
    exact ⟨by trivial, lookupNamed_upsertNamed_self _ _ _, by trivial⟩
  · intro nsOp e hrole hns hbind
    simp only [CreateOrUpdatePlatformRBAC, CreateOrUpdateClusterRole,
      CreateOrUpdateClusterRoleBinding, hrole, hns, hbind]
    exact ⟨by trivial, lookupNamed_upsertNamed_self _ _ _, by trivial⟩
  · intro nsOp hrole hns hbind
    simp only [CreateOrUpdatePlatformRBAC, CreateOrUpdateClusterRole,
      CreateOrUpdateClusterRoleBinding, hrole, hns, hbind]
    exact ⟨by trivial, lookupNamed_upsertNamed_self _ _ _,
      lookupNamed_upsertNamed_self _ _ _, by trivial, by trivial⟩

/-- C10 witness: with a failing operator-namespace lookup the call
errors, yet the just-written ClusterRole remains and no binding
exists. -/
theorem C10_rbac_order_not_atomic_witness :
    (CreateOrUpdatePlatformRBAC envNSFail "platform-role" [] ⟨[], []⟩).2 =
      some ("failed getting operator namespace: " ++ "unable to find operator namespace") ∧
    lookupNamed (CreateOrUpdatePlatformRBAC envNSFail "platform-role" [] ⟨[], []⟩).1.clusterRoles
        "platform-role" = some (createPolicyRules []) ∧
    (CreateOrUpdatePlatformRBAC envNSFail "platform-role" [] ⟨[], []⟩).1.clusterRoleBindings =
      ([] : List (String × (List Subject × RoleRef))) :=
  (C10_rbac_order_not_atomic envNSFail "platform-role" [] ⟨[], []⟩).2.1
    "unable to find operator namespace" rfl rfl

end ODH
